import Mathlib

/-
Verification of the workspace addressing, validation and import/export
subsystem of jupyterlab/labapp.py, shallowly embedded in Lean 4.

The embedded pieces are the two CLI command bodies
LabWorkspaceExportApp.start and LabWorkspaceImportApp.start together with
LabWorkspaceImportApp._validate.  JSON values are modelled by JValue, the
Python runtime behaviour of the membership test and of string subscripts on
arbitrary JSON values is modelled explicitly, and the filesystem effects of
the two commands are modelled by an explicit store state.
-/

namespace LabWorkspace

/-- JSON values as produced by the Python json module: objects keep their
key/value pairs in order (json.load on well-formed input yields objects with
distinct keys). -/
inductive JValue where
  | null
  | bool (b : Bool)
  | num (n : Int)
  | str (s : String)
  | arr (xs : List JValue)
  | obj (kvs : List (String × JValue))
deriving Repr

/-- Python runtime exceptions that the validation code can raise besides its
own explicit raise statements. -/
inductive PyErr where
  | typeError
  | attributeError
  | keyError
deriving Repr, DecidableEq

/-- Lookup of a string key in a JSON object, as Python dict subscripting
does on the (distinct-keyed) dicts json.load returns. -/
def lookupObj (kvs : List (String × JValue)) (k : String) : Option JValue :=
  (kvs.find? (fun p => p.1 == k)).map Prod.snd

/-- Containment of one character list in another, modelling the Python
substring test (the empty needle is contained everywhere). -/
def infixOfB (n : List Char) : List Char → Bool
  | [] => n.isEmpty
  | c :: t => n.isPrefixOf (c :: t) || infixOfB n t

/-- The Python str.startswith test, on the character lists of the two
strings. -/
def startsWithB (pre s : String) : Bool :=
  pre.toList.isPrefixOf s.toList

/-- Python membership test of a string k in a JSON value: a dict tests key
membership, a list tests element equality, a string tests substring
containment; the remaining types raise TypeError (not iterable). -/
def pyContains (k : String) (v : JValue) : Except PyErr Bool :=
  match v with
  | .obj kvs => .ok (kvs.any (fun p => p.1 == k))
  | .arr xs => .ok (xs.any (fun x => match x with | .str s => s == k | _ => false))
  | .str s => .ok (infixOfB k.toList s.toList)
  | _ => .error .typeError

/-- Python subscripting v[k] with a string key k: a dict looks the key up
(KeyError when absent); every other JSON type raises TypeError for a string
index. -/
def pyGetItemStr (v : JValue) (k : String) : Except PyErr JValue :=
  match v with
  | .obj kvs =>
    match lookupObj kvs k with
    | some x => .ok x
    | none => .error .keyError
  | _ => .error .typeError

/-- Python inequality test v != s against a string s: only an equal string
compares equal; a value of any other JSON type is unequal to a string. -/
def pyNe (v : JValue) (s : String) : Bool :=
  match v with
  | .str t => t != s
  | _ => true

/-- Failure outcomes of LabWorkspaceImportApp._validate: malformed is a
json.load failure, the next four are the explicit raise statements of the
source, and pyError is a Python runtime error escaping one of the
validation stages, recorded together with the stage (2 to 5) whose
evaluation raised it. -/
inductive VErr where
  | malformed
  | missingData
  | missingMetadata
  | missingId
  | identityMismatch (idv : String)
  | pyError (stage : Nat) (e : PyErr)
deriving Repr, DecidableEq

/-- Shallow embedding of LabWorkspaceImportApp._validate.  The argument d is
the result of json.load on the input stream (none when parsing raised), and
the checks mirror the source line by line: the data key test, the metadata
key test, the id-in-metadata test, and finally the identity check
id != page_url and not id.startswith(workspaces_url), whose startswith call
raises AttributeError when the id is not a string.  On success the parsed
document is returned unchanged. -/
def validate (d : Option JValue) (pageUrl workspacesUrl : String) :
    Except VErr JValue :=
  match d with
  | none => .error .malformed
  | some workspace =>
    match pyContains "data" workspace with
    | .error e => .error (.pyError 2 e)
    | .ok false => .error .missingData
    | .ok true =>
      match pyContains "metadata" workspace with
      | .error e => .error (.pyError 3 e)
      | .ok false => .error .missingMetadata
      | .ok true =>
        match pyGetItemStr workspace "metadata" with
        | .error e => .error (.pyError 4 e)
        | .ok md =>
          match pyContains "id" md with
          | .error e => .error (.pyError 4 e)
          | .ok false => .error .missingId
          | .ok true =>
            match pyGetItemStr md "id" with
            | .error e => .error (.pyError 5 e)
            | .ok idv =>
              if pyNe idv pageUrl then
                match idv with
                | .str s =>
                  if startsWithB workspacesUrl s then .ok workspace
                  else .error (.identityMismatch s)
                | _ => .error (.pyError 5 .attributeError)
              else .ok workspace

/-- The validation stage (1 to 5) at which a given failure is raised. -/
def stageOf : VErr → Nat
  | .malformed => 1
  | .missingData => 2
  | .missingMetadata => 3
  | .missingId => 4
  | .identityMismatch _ => 5
  | .pyError s _ => s

def isOkTrue : Except PyErr Bool → Bool
  | .ok true => true
  | _ => false

/-- Whether validation stage i, taken on its own, fails on the document:
stage 1 is JSON parsing, stages 2 to 5 are the four checks of the validator
in source order; a stage also counts as failing when its Python evaluation
raises instead of returning a result. -/
def failsAt (i : Nat) (d : Option JValue) (pageUrl workspacesUrl : String) :
    Bool :=
  match d with
  | none => i == 1
  | some v =>
    if i = 2 then !(isOkTrue (pyContains "data" v))
    else if i = 3 then !(isOkTrue (pyContains "metadata" v))
    else if i = 4 then
      match pyGetItemStr v "metadata" with
      | .error _ => true
      | .ok md => !(isOkTrue (pyContains "id" md))
    else if i = 5 then
      match pyGetItemStr v "metadata" with
      | .error _ => true
      | .ok md =>
        match pyGetItemStr md "id" with
        | .error _ => true
        | .ok idv =>
          if pyNe idv pageUrl then
            match idv with
            | .str s => !(startsWithB workspacesUrl s)
            | _ => true
          else false
    else false

/-- Modelled from the spec: slugify lives in the external jupyterlab_server
package and is absent from the sources.  Section 4.1 of the spec requires
only a deterministic, filesystem-safe, total encoding of the raw identifier
and the base URL, with no randomness; this replacement maps every character
outside the alphanumeric range to a dash. -/
def slugify (raw baseUrl : String) : String :=
  String.mk ((baseUrl ++ raw).toList.map (fun c => if c.isAlphanum then c else '-'))

/-- Modelled from the spec: url_path_join comes from the external notebook
package.  The spec says the export argument is joined onto the
workspaces-URL path, so this joins the two pieces with exactly one slash
between them. -/
def ujoin (a b : String) : String :=
  (if ("/".toList).isSuffixOf a.toList then String.mk a.toList.dropLast else a)
    ++ "/" ++
    (if ("/".toList).isPrefixOf b.toList then String.mk (b.toList.drop 1) else b)

/-- Modelled from the spec: the fixed workspace file extension constant
that comes from the external jupyterlab_server package. -/
def WORKSPACE_EXTENSION : String := ".jupyterlab-workspace"

/-- JSON string escaping as json.dumps performs it on the characters the
workspace documents of this development contain (quote, backslash and the
common ASCII control characters). -/
def jescapeChar (c : Char) : String :=
  if c = '"' then "\\\""
  else if c = '\\' then "\\\\"
  else if c = '\n' then "\\n"
  else if c = '\t' then "\\t"
  else if c = '\r' then "\\r"
  else String.singleton c

def jstr (s : String) : String :=
  "\"" ++ String.join (s.toList.map jescapeChar) ++ "\""

mutual

/-- json.dumps with its default separators. -/
def jdump : JValue → String
  | .null => "null"
  | .bool true => "true"
  | .bool false => "false"
  | .num n => toString n
  | .str s => jstr s
  | .arr xs => "[" ++ jdumpArr xs ++ "]"
  | .obj kvs => "\x7b" ++ jdumpObj kvs ++ "\x7d"

def jdumpArr : List JValue → String
  | [] => ""
  | [x] => jdump x
  | x :: y :: rest => jdump x ++ ", " ++ jdumpArr (y :: rest)

def jdumpObj : List (String × JValue) → String
  | [] => ""
  | [(k, v)] => jstr k ++ ": " ++ jdump v
  | (k, v) :: q :: rest => jstr k ++ ": " ++ jdump v ++ ", " ++ jdumpObj (q :: rest)

end

/-- The metadata.id string of a workspace document, when it has one. -/
def metaId (v : JValue) : Option String :=
  match pyGetItemStr v "metadata" with
  | .ok md =>
    match pyGetItemStr md "id" with
    | .ok (.str s) => some s
    | _ => none
  | .error _ => none

/-- The synthesized empty workspace dict(data=dict(), metadata=dict(id=raw))
that export prints when no stored file is usable. -/
def emptyWorkspace (raw : String) : JValue :=
  .obj [("data", .obj []), ("metadata", .obj [("id", .str raw)])]

/-- The configuration values the two workspace commands read from the
application; all of them are resolved by load_config and LabApp outside
this core. -/
structure Config where
  base_url : String
  workspaces_dir : String
  page_url : String
  workspaces_url : String
deriving Repr, DecidableEq

/-- State of one stored workspace file as the CLI can encounter it: present
with readable contents, present but open() raises, or present but read()
raises after a successful open(). -/
inductive FileState where
  | content (s : String)
  | unopenable
  | unreadable
deriving Repr, DecidableEq

/-- The workspace store: whether the workspaces directory exists, and its
files keyed by file name (slug plus extension). -/
structure Store where
  dirExists : Bool
  files : List (String × FileState)
deriving Repr, DecidableEq

def lookupFile (files : List (String × FileState)) (n : String) :
    Option FileState :=
  (files.find? (fun p => p.1 == n)).map Prod.snd

/-- Writing a file replaces any previous file of the same name. -/
def setFile (files : List (String × FileState)) (n : String) (v : FileState) :
    List (String × FileState) :=
  (n, v) :: files.filter (fun p => !(p.1 == n))

def countName (files : List (String × FileState)) (n : String) : Nat :=
  (files.filter (fun p => p.1 == n)).length

/-- File name (slug plus extension) used for a resolved identifier. -/
def slugFname (cfg : Config) (raw : String) : String :=
  slugify raw cfg.base_url ++ WORKSPACE_EXTENSION

/-- File name the import command writes a validated workspace to: the slug
of the metadata.id of the document.  Validation guarantees the id is a
string, so the getD default is dead code. -/
def wsFileName (cfg : Config) (w : JValue) : String :=
  slugFname cfg ((metaId w).getD "")

/-- The target identifier export resolves: the page URL when no argument is
given, else the argument joined onto the workspaces URL. -/
def resolveTarget (cfg : Config) (args : List String) : String :=
  match args with
  | [] => cfg.page_url
  | a :: _ => ujoin cfg.workspaces_url a

inductive ExportFail where
  | usage
  | openFailed
deriving Repr, DecidableEq

/-- Shallow embedding of LabWorkspaceExportApp.start.  The result is the
JSON text printed on success; more than one argument exits non-zero, and an
exception raised by open() on an existing file propagates uncaught, because
only the read inside the try block is downgraded to the synthesized empty
workspace.  A readable file is printed verbatim, without parsing it. -/
def exportStart (cfg : Config) (args : List String) (st : Store) :
    Except ExportFail String :=
  if args.length > 1 then .error .usage
  else
    let raw := resolveTarget cfg args
    match lookupFile st.files (slugFname cfg raw) with
    | none => .ok (jdump (emptyWorkspace raw))
    | some (.content s) => .ok s
    | some .unreadable => .ok (jdump (emptyWorkspace raw))
    | some .unopenable => .error .openFailed

inductive ImportFail where
  | usage
  | fileNotFound
  | invalid (e : VErr)
  | mkdirFailed
deriving Repr, DecidableEq

/-- Shallow embedding of LabWorkspaceImportApp.start.  args are the CLI
arguments, srcExists whether the named source file exists, srcDoc the
json.load result of its contents (none when parsing raised), mkdirOk
whether os.makedirs would succeed when invoked; the result is the printed
path or the failure, paired with the store after the invocation. -/
def importStart (cfg : Config) (args : List String) (srcExists : Bool)
    (srcDoc : Option JValue) (mkdirOk : Bool) (st : Store) :
    Except ImportFail String × Store :=
  if args.length ≠ 1 then (.error .usage, st)
  else if srcExists = false then (.error .fileNotFound, st)
  else
    match validate srcDoc cfg.page_url cfg.workspaces_url with
    | .error e => (.error (.invalid e), st)
    | .ok workspace =>
      if st.dirExists = false ∧ mkdirOk = false then (.error .mkdirFailed, st)
      else
        let fname := wsFileName cfg workspace
        (.ok (cfg.workspaces_dir ++ "/" ++ fname),
         { dirExists := true,
           files := setFile st.files fname (.content (jdump workspace)) })

/-- A fixed example configuration used by the concrete witnesses below. -/
def cfgEx : Config := ⟨"/", "wd", "/lab", "/lab/workspaces"⟩

/-- A minimal valid workspace document for the example configuration. -/
def wdocEx : JValue :=
  .obj [("data", .obj []), ("metadata", .obj [("id", .str "/lab")])]

/-- A document whose data field is missing. -/
def docNoData : JValue := .obj [("metadata", .obj [("id", .str "/lab")])]

/-- A document whose id shares the workspaces URL only as a raw string
prefix: /lab/workspacesfoo is not inside the /lab/workspaces namespace. -/
def docRawPrefix : JValue :=
  .obj [("data", .obj []),
    ("metadata", .obj [("id", .str "/lab/workspacesfoo")])]

/-- A valid document carrying an extra top-level key. -/
def docExtra : JValue :=
  .obj [("data", .obj []), ("metadata", .obj [("id", .str "/lab")]),
    ("extra", .num 7)]

/-- A valid document with a non-empty data payload. -/
def docRich : JValue :=
  .obj [("data", .obj [("k", .num 1)]),
    ("metadata", .obj [("id", .str "/lab")])]

/-- A document whose data value is a number, not a mapping. -/
def docValNum : JValue :=
  .obj [("data", .num 5),
    ("metadata", .obj [("id", .str "/lab/workspaces/x")])]

theorem validate_ok_eq (d : Option JValue) (p w : String) (v : JValue)
    (h : validate d p w = .ok v) : d = some v := by
  cases d with
  | none => simp [validate] at h
  | some ws =>
    simp only [validate] at h
    repeat' split at h
    all_goals simp_all

theorem any_of_lookupObj (kvs : List (String × JValue)) (k : String)
    (x : JValue) (h : lookupObj kvs k = some x) :
    kvs.any (fun p => p.1 == k) = true := by
  induction kvs with
  | nil => simp [lookupObj] at h
  | cons q t ih =>
    by_cases hq : (q.1 == k) = true
    · simp [List.any_cons, hq]
    · rw [List.any_cons]
      simp only [hq, Bool.false_or]
      apply ih
      have hne : ¬((fun p : String × JValue => p.1 == k) q = true) := by
        simpa using hq
      have h2 : List.find? (fun p : String × JValue => p.1 == k) (q :: t) =
          List.find? (fun p : String × JValue => p.1 == k) t :=
        List.find?_cons_of_neg _ hne
      rw [lookupObj] at h ⊢
      rw [h2] at h
      exact h

theorem import_ok_store (cfg : Config) (f : String) (srcDoc : Option JValue)
    (doc : JValue) (st : Store)
    (hv : validate srcDoc cfg.page_url cfg.workspaces_url = .ok doc) :
    importStart cfg [f] true srcDoc true st =
      (.ok (cfg.workspaces_dir ++ "/" ++ wsFileName cfg doc),
       { dirExists := true,
         files := setFile st.files (wsFileName cfg doc)
           (.content (jdump doc)) }) := by
  simp [importStart, hv]

theorem lookupFile_setFile_self (fs : List (String × FileState)) (n : String)
    (v : FileState) : lookupFile (setFile fs n v) n = some v := by
  simp [lookupFile, setFile]

theorem filter_after_remove (fs : List (String × FileState)) (n : String) :
    (fs.filter (fun p => !(p.1 == n))).filter (fun p => (p.1 == n)) = [] := by
  induction fs with
  | nil => rfl
  | cons q t ih =>
    by_cases hq : (q.1 == n) = true
    · simp [List.filter_cons, hq, ih]
    · simp [List.filter_cons, hq, ih]

theorem countName_setFile (fs : List (String × FileState)) (n : String)
    (v : FileState) : countName (setFile fs n v) n = 1 := by
  simp [countName, setFile, List.filter_cons, filter_after_remove fs n]

theorem validate_structured (kvs mdkvs : List (String × JValue))
    (idStr pageUrl workspacesUrl : String)
    (hdata : kvs.any (fun q => q.1 == "data") = true)
    (hmd : lookupObj kvs "metadata" = some (.obj mdkvs))
    (hid : lookupObj mdkvs "id" = some (.str idStr)) :
    validate (some (.obj kvs)) pageUrl workspacesUrl =
      (if idStr = pageUrl ∨ startsWithB workspacesUrl idStr = true
       then .ok (.obj kvs)
       else .error (.identityMismatch idStr)) := by
  have hmdany : kvs.any (fun q => q.1 == "metadata") = true :=
    any_of_lookupObj _ _ _ hmd
  have hidany : mdkvs.any (fun q => q.1 == "id") = true :=
    any_of_lookupObj _ _ _ hid
  simp only [validate, pyContains, pyGetItemStr, pyNe, hdata, hmd, hid,
    hmdany, hidany]
  by_cases hpe : idStr = pageUrl
  · simp [hpe]
  · by_cases hsw : startsWithB workspacesUrl idStr = true
    · simp [hpe, hsw]
    · simp [hpe, hsw]

theorem validate_sound (v : JValue) (p w : String) :
    (validate (some v) p w = .ok v ∧
      ∀ j, failsAt j (some v) p w = false) ∨
    (∃ e, validate (some v) p w = .error e ∧
      failsAt (stageOf e) (some v) p w = true ∧
      ∀ j, 0 < j → j < stageOf e → failsAt j (some v) p w = false) := by
  cases h2 : pyContains "data" v with
  | error e2 =>
    refine Or.inr ⟨.pyError 2 e2, by simp [validate, h2], ?_, ?_⟩
    · simp [stageOf, failsAt, h2, isOkTrue]
    · intro j hj0 hj1
      simp only [stageOf] at hj1
      interval_cases j
      simp [failsAt]
  | ok b2 =>
    cases b2 with
    | false =>
      refine Or.inr ⟨.missingData, by simp [validate, h2], ?_, ?_⟩
      · simp [stageOf, failsAt, h2, isOkTrue]
      · intro j hj0 hj1
        simp only [stageOf] at hj1
        interval_cases j
        simp [failsAt]
    | true =>
      cases h3 : pyContains "metadata" v with
      | error e3 =>
        refine Or.inr ⟨.pyError 3 e3, by simp [validate, h2, h3], ?_, ?_⟩
        · simp [stageOf, failsAt, h3, isOkTrue]
        · intro j hj0 hj1
          simp only [stageOf] at hj1
          interval_cases j <;> simp [failsAt, h2, isOkTrue]
      | ok b3 =>
        cases b3 with
        | false =>
          refine Or.inr ⟨.missingMetadata, by simp [validate, h2, h3], ?_, ?_⟩
          · simp [stageOf, failsAt, h3, isOkTrue]
          · intro j hj0 hj1
            simp only [stageOf] at hj1
            interval_cases j <;> simp [failsAt, h2, isOkTrue]
        | true =>
          cases h4 : pyGetItemStr v "metadata" with
          | error e4 =>
            refine Or.inr ⟨.pyError 4 e4, by simp [validate, h2, h3, h4], ?_, ?_⟩
            · simp [stageOf, failsAt, h4]
            · intro j hj0 hj1
              simp only [stageOf] at hj1
              interval_cases j <;> simp [failsAt, h2, h3, isOkTrue]
          | ok md =>
            cases h5 : pyContains "id" md with
            | error e5 =>
              refine Or.inr ⟨.pyError 4 e5,
                by simp [validate, h2, h3, h4, h5], ?_, ?_⟩
              · simp [stageOf, failsAt, h4, h5, isOkTrue]
              · intro j hj0 hj1
                simp only [stageOf] at hj1
                interval_cases j <;> simp [failsAt, h2, h3, isOkTrue]
            | ok b5 =>
              cases b5 with
              | false =>
                refine Or.inr ⟨.missingId,
                  by simp [validate, h2, h3, h4, h5], ?_, ?_⟩
                · simp [stageOf, failsAt, h4, h5, isOkTrue]
                · intro j hj0 hj1
                  simp only [stageOf] at hj1
                  interval_cases j <;> simp [failsAt, h2, h3, isOkTrue]
              | true =>
                cases h6 : pyGetItemStr md "id" with
                | error e6 =>
                  refine Or.inr ⟨.pyError 5 e6,
                    by simp [validate, h2, h3, h4, h5, h6], ?_, ?_⟩
                  · simp [stageOf, failsAt, h4, h6]
                  · intro j hj0 hj1
                    simp only [stageOf] at hj1
                    interval_cases j <;>
                      simp [failsAt, h2, h3, h4, h5, isOkTrue]
                | ok idv =>
                  cases h7 : pyNe idv p with
                  | false =>
                    refine Or.inl ⟨by simp [validate, h2, h3, h4, h5, h6, h7], ?_⟩
                    intro j
                    simp only [failsAt]
                    split_ifs <;>
                      simp [h2, h3, h4, h5, h6, h7, isOkTrue]
                  | true =>
                    cases idv with
                    | str s =>
                      cases h8 : startsWithB w s with
                      | true =>
                        refine Or.inl
                          ⟨by simp [validate, h2, h3, h4, h5, h6, h7, h8], ?_⟩
                        intro j
                        simp only [failsAt]
                        split_ifs <;>
                          simp [h2, h3, h4, h5, h6, h7, h8, isOkTrue]
                      | false =>
                        refine Or.inr ⟨.identityMismatch s,
                          by simp [validate, h2, h3, h4, h5, h6, h7, h8], ?_, ?_⟩
                        · simp [stageOf, failsAt, h4, h6, h7, h8]
                        · intro j hj0 hj1
                          simp only [stageOf] at hj1
                          interval_cases j <;>
                            simp [failsAt, h2, h3, h4, h5, isOkTrue]
                    | null =>
                      refine Or.inr ⟨.pyError 5 .attributeError,
                        by simp [validate, h2, h3, h4, h5, h6, h7], ?_, ?_⟩
                      · simp [stageOf, failsAt, h4, h6, h7]
                      · intro j hj0 hj1
                        simp only [stageOf] at hj1
                        interval_cases j <;>
                          simp [failsAt, h2, h3, h4, h5, isOkTrue]
                    | bool b =>
                      refine Or.inr ⟨.pyError 5 .attributeError,
                        by simp [validate, h2, h3, h4, h5, h6, h7], ?_, ?_⟩
                      · simp [stageOf, failsAt, h4, h6, h7]
                      · intro j hj0 hj1
                        simp only [stageOf] at hj1
                        interval_cases j <;>
                          simp [failsAt, h2, h3, h4, h5, isOkTrue]
                    | num n =>
                      refine Or.inr ⟨.pyError 5 .attributeError,
                        by simp [validate, h2, h3, h4, h5, h6, h7], ?_, ?_⟩
                      · simp [stageOf, failsAt, h4, h6, h7]
                      · intro j hj0 hj1
                        simp only [stageOf] at hj1
                        interval_cases j <;>
                          simp [failsAt, h2, h3, h4, h5, isOkTrue]
                    | arr xs =>
                      refine Or.inr ⟨.pyError 5 .attributeError,
                        by simp [validate, h2, h3, h4, h5, h6, h7], ?_, ?_⟩
                      · simp [stageOf, failsAt, h4, h6, h7]
                      · intro j hj0 hj1
                        simp only [stageOf] at hj1
                        interval_cases j <;>
                          simp [failsAt, h2, h3, h4, h5, isOkTrue]
                    | obj kvs =>
                      refine Or.inr ⟨.pyError 5 .attributeError,
                        by simp [validate, h2, h3, h4, h5, h6, h7], ?_, ?_⟩
                      · simp [stageOf, failsAt, h4, h6, h7]
                      · intro j hj0 hj1
                        simp only [stageOf] at hj1
                        interval_cases j <;>
                          simp [failsAt, h2, h3, h4, h5, isOkTrue]

/-- C1 counterexample: with pageUrl /lab and workspacesUrl /lab/workspaces,
the id /lab/workspacesfoo equals neither URL and is not a path extension of
the workspaces namespace (it does not extend /lab/workspaces/), yet it
shares workspacesUrl as a raw string prefix and validation accepts the
document, contradicting the claim that such a document is rejected with an
identity mismatch. -/
theorem validate_raw_prefix_accepted :
    validate (some docRawPrefix) "/lab" "/lab/workspaces" = .ok docRawPrefix ∧
    "/lab/workspacesfoo" ≠ "/lab" ∧
    "/lab/workspacesfoo" ≠ "/lab/workspaces" ∧
    startsWithB "/lab/workspaces/" "/lab/workspacesfoo" = false ∧
    startsWithB "/lab/workspaces" "/lab/workspacesfoo" = true :=
  ⟨rfl, by decide, by decide, rfl, rfl⟩

/-- C1 (amended): a document whose top level has the data key and whose
metadata object carries a string id is accepted exactly when the id equals
pageUrl or has workspacesUrl as a raw string prefix, Python startswith
style, and otherwise rejected with the identity mismatch failure.  The raw
string prefix test replaces the path-prefix test the claim asserted: ids
outside the workspaces namespace that extend workspacesUrl as a plain
string are accepted as well. -/
theorem validate_identity_raw_prefix (kvs mdkvs : List (String × JValue))
    (idStr pageUrl workspacesUrl : String)
    (hdata : kvs.any (fun q => q.1 == "data") = true)
    (hmd : lookupObj kvs "metadata" = some (.obj mdkvs))
    (hid : lookupObj mdkvs "id" = some (.str idStr)) :
    validate (some (.obj kvs)) pageUrl workspacesUrl =
      (if idStr = pageUrl ∨ startsWithB workspacesUrl idStr = true
       then .ok (.obj kvs)
       else .error (.identityMismatch idStr)) :=
  validate_structured kvs mdkvs idStr pageUrl workspacesUrl hdata hmd hid

theorem validate_identity_raw_prefix_witness :
    validate (some (JValue.obj [("data", JValue.obj []),
        ("metadata", JValue.obj [("id", JValue.str "/lab/workspacesfoo")])]))
      "/lab" "/lab/workspaces" =
      (if "/lab/workspacesfoo" = "/lab" ∨
          startsWithB "/lab/workspaces" "/lab/workspacesfoo" = true
       then .ok (JValue.obj [("data", JValue.obj []),
        ("metadata", JValue.obj [("id", JValue.str "/lab/workspacesfoo")])])
       else .error (.identityMismatch "/lab/workspacesfoo")) :=
  validate_identity_raw_prefix
    [("data", JValue.obj []),
      ("metadata", JValue.obj [("id", JValue.str "/lab/workspacesfoo")])]
    [("id", JValue.str "/lab/workspacesfoo")]
    "/lab/workspacesfoo" "/lab" "/lab/workspaces" rfl rfl rfl

/-- C2 counterexample: an existing workspace file whose open() call raises
makes export terminate with the propagated failure instead of emitting the
synthesized empty workspace; only the read call sits inside the try block
of the source, the open call does not. -/
theorem export_unopenable_fails :
    exportStart cfgEx [] ⟨true, [(slugFname cfgEx "/lab", .unopenable)]⟩ =
      .error .openFailed := rfl

/-- C2 (amended): for an existing workspace file, a failure of the read
performed inside the try block makes export emit the synthesized empty
workspace, and a readable file is emitted verbatim without any parsing, so
corrupt readable contents never cause a failure; however a failure of the
open call on an existing file is not caught and propagates, so export can
terminate with a failure on an unopenable existing file. -/
theorem export_read_fallback (cfg : Config) (args : List String) (st : Store)
    (h : args.length ≤ 1) :
    (lookupFile st.files (slugFname cfg (resolveTarget cfg args)) =
        some .unreadable →
      exportStart cfg args st =
        .ok (jdump (emptyWorkspace (resolveTarget cfg args)))) ∧
    (∀ s, lookupFile st.files (slugFname cfg (resolveTarget cfg args)) =
        some (.content s) →
      exportStart cfg args st = .ok s) := by
  have hgt : ¬(args.length > 1) := by omega
  constructor
  · intro hl
    simp [exportStart, hgt, hl]
  · intro s hl
    simp [exportStart, hgt, hl]

theorem export_read_fallback_witness :
    lookupFile [(slugFname cfgEx "/lab", FileState.unreadable)]
      (slugFname cfgEx (resolveTarget cfgEx [])) = some .unreadable ∧
    exportStart cfgEx [] ⟨true, [(slugFname cfgEx "/lab", .unreadable)]⟩ =
      .ok (jdump (emptyWorkspace (resolveTarget cfgEx []))) :=
  ⟨rfl,
   (export_read_fallback cfgEx []
      ⟨true, [(slugFname cfgEx "/lab", .unreadable)]⟩ (by decide)).1 rfl⟩

/-- C3: validation applies its rules in a fixed order with the first
failure winning: an accepted document fails no stage, and a rejected
document is reported at a stage that fails while every earlier stage
passes, so the reported failure is always the earliest violated rule. -/
theorem validate_fail_fast (d : Option JValue) (p w : String) :
    (∀ v, validate d p w = .ok v → ∀ j, failsAt j d p w = false) ∧
    (∀ e, validate d p w = .error e →
      failsAt (stageOf e) d p w = true ∧
      ∀ j, 0 < j → j < stageOf e → failsAt j d p w = false) := by
  cases d with
  | none =>
    constructor
    · intro v hv
      simp [validate] at hv
    · intro e he
      simp only [validate] at he
      injection he with h
      subst h
      refine ⟨by simp [stageOf, failsAt], ?_⟩
      intro j hj0 hj1
      simp only [stageOf] at hj1
      exact absurd hj1 (by omega)
  | some v =>
    rcases validate_sound v p w with ⟨hok, hall⟩ | ⟨e0, herr, hst, hpre⟩
    · refine ⟨fun v' hv j => hall j, fun e he => ?_⟩
      rw [hok] at he
      simp at he
    · refine ⟨fun v' hv => ?_, fun e he => ?_⟩
      · rw [herr] at hv
        simp at hv
      · rw [herr] at he
        injection he with h
        subst h
        exact ⟨hst, hpre⟩

theorem validate_fail_fast_witness :
    validate (some docNoData) "/lab" "/lab/workspaces" = .error .missingData ∧
    failsAt 2 (some docNoData) "/lab" "/lab/workspaces" = true :=
  ⟨rfl,
   ((validate_fail_fast (some docNoData) "/lab" "/lab/workspaces").2
      VErr.missingData rfl).1⟩

/-- C4: an import invocation that fails with a usage error (argument count
different from one), a missing source file, or a validation failure
terminates with a failure and leaves the workspace store completely
untouched: no file is written and the directory-exists flag is unchanged. -/
theorem import_failure_leaves_store (cfg : Config) (args : List String)
    (srcExists : Bool) (srcDoc : Option JValue) (mkdirOk : Bool) (st : Store)
    (h : args.length ≠ 1 ∨ srcExists = false ∨
      ∃ e, validate srcDoc cfg.page_url cfg.workspaces_url = .error e) :
    (∃ fl, (importStart cfg args srcExists srcDoc mkdirOk st).1 = .error fl) ∧
    (importStart cfg args srcExists srcDoc mkdirOk st).2 = st := by
  by_cases h1 : args.length = 1
  · rcases h with h | h | ⟨e, he⟩
    · exact absurd h1 h
    · cases srcExists with
      | true => simp at h
      | false =>
        refine ⟨⟨.fileNotFound, ?_⟩, ?_⟩ <;> simp [importStart, h1]
    · cases srcExists with
      | false =>
        refine ⟨⟨.fileNotFound, ?_⟩, ?_⟩ <;> simp [importStart, h1]
      | true =>
        refine ⟨⟨.invalid e, ?_⟩, ?_⟩ <;> simp [importStart, h1, he]
  · refine ⟨⟨.usage, ?_⟩, ?_⟩ <;> simp [importStart, h1]

theorem import_failure_leaves_store_witness :
    (∃ fl, (importStart cfgEx [] true none true ⟨false, []⟩).1 = .error fl) ∧
    (importStart cfgEx [] true none true ⟨false, []⟩).2 = ⟨false, []⟩ :=
  import_failure_leaves_store cfgEx [] true none true ⟨false, []⟩
    (Or.inl (by decide))

/-- C5: export resolves a missing target argument to pageUrl and a single
argument to the join of workspacesUrl with the argument, and whenever the
store has no file for the resolved slug it emits exactly the synthesized
empty workspace carrying the resolved identifier. -/
theorem export_missing_emits_empty (cfg : Config) (st : Store)
    (args : List String) (h : args.length ≤ 1)
    (hmiss : lookupFile st.files
      (slugFname cfg (resolveTarget cfg args)) = none) :
    exportStart cfg args st =
      .ok (jdump (emptyWorkspace (resolveTarget cfg args))) ∧
    resolveTarget cfg [] = cfg.page_url ∧
    ∀ a, resolveTarget cfg [a] = ujoin cfg.workspaces_url a := by
  refine ⟨?_, rfl, fun a => rfl⟩
  have hgt : ¬(args.length > 1) := by omega
  simp [exportStart, hgt, hmiss]

theorem export_missing_emits_empty_witness :
    exportStart cfgEx ["foo"] ⟨true, []⟩ =
      .ok (jdump (emptyWorkspace (resolveTarget cfgEx ["foo"]))) ∧
    jdump (emptyWorkspace (resolveTarget cfgEx ["foo"])) =
      "\x7b\"data\": \x7b\x7d, \"metadata\": \x7b\"id\": \"/lab/workspaces/foo\"\x7d\x7d" := by
  constructor
  · exact (export_missing_emits_empty cfgEx ⟨true, []⟩ ["foo"]
      (by decide) rfl).1
  · have hr : resolveTarget cfgEx ["foo"] = "/lab/workspaces/foo" := by decide
    rw [hr]
    simp [jdump, jdumpObj, emptyWorkspace, jstr, jescapeChar]
    decide

/-- C6: round-trip: a document accepted by validation whose metadata.id
equals pageUrl is, after import, reproduced by an argumentless export as
exactly the serialization of the imported document, so its data and
metadata.id are preserved. -/
theorem import_then_export_roundtrip (cfg : Config) (f : String)
    (srcDoc : Option JValue) (doc : JValue) (st : Store)
    (hv : validate srcDoc cfg.page_url cfg.workspaces_url = .ok doc)
    (hid : metaId doc = some cfg.page_url) :
    srcDoc = some doc ∧
    exportStart cfg [] (importStart cfg [f] true srcDoc true st).2 =
      .ok (jdump doc) := by
  refine ⟨validate_ok_eq _ _ _ _ hv, ?_⟩
  rw [import_ok_store cfg f srcDoc doc st hv]
  have hfn : wsFileName cfg doc = slugFname cfg cfg.page_url := by
    simp [wsFileName, hid]
  simp [exportStart, resolveTarget, hfn, lookupFile_setFile_self]

theorem import_then_export_roundtrip_witness :
    validate (some docRich) cfgEx.page_url cfgEx.workspaces_url =
      .ok docRich ∧
    metaId docRich = some cfgEx.page_url ∧
    exportStart cfgEx []
      (importStart cfgEx ["w.json"] true (some docRich) true ⟨false, []⟩).2 =
      .ok (jdump docRich) :=
  ⟨rfl, rfl,
   (import_then_export_roundtrip cfgEx "w.json" (some docRich) docRich
      ⟨false, []⟩ rfl rfl).2⟩

/-- C7: importing the same document twice leaves exactly one file in the
store for its slug, and its contents are the serialization of the input of
the second import, not a merge of both imports. -/
theorem import_twice_single_file (cfg : Config) (f : String)
    (srcDoc : Option JValue) (doc : JValue) (st : Store)
    (hv : validate srcDoc cfg.page_url cfg.workspaces_url = .ok doc) :
    countName (importStart cfg [f] true srcDoc true
        (importStart cfg [f] true srcDoc true st).2).2.files
      (wsFileName cfg doc) = 1 ∧
    lookupFile (importStart cfg [f] true srcDoc true
        (importStart cfg [f] true srcDoc true st).2).2.files
      (wsFileName cfg doc) = some (.content (jdump doc)) := by
  rw [import_ok_store cfg f srcDoc doc st hv]
  dsimp only
  rw [import_ok_store cfg f srcDoc doc
    ⟨true, setFile st.files (wsFileName cfg doc) (.content (jdump doc))⟩ hv]
  dsimp only
  exact ⟨countName_setFile _ _ _, lookupFile_setFile_self _ _ _⟩

theorem import_twice_single_file_witness :
    validate (some wdocEx) cfgEx.page_url cfgEx.workspaces_url = .ok wdocEx ∧
    countName (importStart cfgEx ["w.json"] true (some wdocEx) true
        (importStart cfgEx ["w.json"] true (some wdocEx) true
          ⟨false, []⟩).2).2.files
      (wsFileName cfgEx wdocEx) = 1 :=
  ⟨rfl,
   (import_twice_single_file cfgEx "w.json" (some wdocEx) wdocEx
      ⟨false, []⟩ rfl).1⟩

/-- C8: when the workspaces directory does not exist, an import whose
document passes validation creates the directory and writes the workspace
file in the same invocation; when directory creation fails, import
terminates with the mkdir failure and writes nothing. -/
theorem import_creates_directory (cfg : Config) (f : String)
    (srcDoc : Option JValue) (doc : JValue) (st : Store) (mkdirOk : Bool)
    (hv : validate srcDoc cfg.page_url cfg.workspaces_url = .ok doc)
    (hdir : st.dirExists = false) :
    (mkdirOk = true →
      (importStart cfg [f] true srcDoc mkdirOk st).1 =
        .ok (cfg.workspaces_dir ++ "/" ++ wsFileName cfg doc) ∧
      (importStart cfg [f] true srcDoc mkdirOk st).2.dirExists = true ∧
      lookupFile (importStart cfg [f] true srcDoc mkdirOk st).2.files
        (wsFileName cfg doc) = some (.content (jdump doc))) ∧
    (mkdirOk = false →
      importStart cfg [f] true srcDoc mkdirOk st =
        (.error .mkdirFailed, st)) := by
  constructor
  · intro hm
    subst hm
    rw [import_ok_store cfg f srcDoc doc st hv]
    dsimp only
    exact ⟨rfl, rfl, lookupFile_setFile_self _ _ _⟩
  · intro hm
    subst hm
    simp [importStart, hv, hdir]

theorem import_creates_directory_witness :
    (importStart cfgEx ["w.json"] true (some wdocEx) true ⟨false, []⟩).1 =
      .ok (cfgEx.workspaces_dir ++ "/" ++ wsFileName cfgEx wdocEx) ∧
    (importStart cfgEx ["w.json"] true (some wdocEx) true
      ⟨false, []⟩).2.dirExists = true :=
  ⟨((import_creates_directory cfgEx "w.json" (some wdocEx) wdocEx
      ⟨false, []⟩ true rfl rfl).1 rfl).1,
   ((import_creates_directory cfgEx "w.json" (some wdocEx) wdocEx
      ⟨false, []⟩ true rfl rfl).1 rfl).2.1⟩

/-- C9: validation is content-preserving: an accepted document is returned
exactly as parsed, without normalization, and import writes the
serialization of that unmodified document, extra top-level keys included,
to the store. -/
theorem validate_content_preserving (cfg : Config) (f : String) (st : Store)
    (doc v : JValue)
    (hv : validate (some doc) cfg.page_url cfg.workspaces_url = .ok v) :
    v = doc ∧
    lookupFile (importStart cfg [f] true (some doc) true st).2.files
      (wsFileName cfg doc) = some (.content (jdump doc)) := by
  have hd : some doc = some v := validate_ok_eq _ _ _ _ hv
  have hvd : v = doc := by
    injection hd with h
    exact h.symm
  subst hvd
  refine ⟨rfl, ?_⟩
  rw [import_ok_store cfg f (some v) v st hv]
  dsimp only
  exact lookupFile_setFile_self _ _ _

theorem validate_content_preserving_witness :
    validate (some docExtra) cfgEx.page_url cfgEx.workspaces_url =
      .ok docExtra ∧
    lookupFile (importStart cfgEx ["w.json"] true (some docExtra) true
        ⟨false, []⟩).2.files
      (wsFileName cfgEx docExtra) = some (.content (jdump docExtra)) :=
  ⟨rfl,
   (validate_content_preserving cfgEx "w.json" ⟨false, []⟩ docExtra docExtra
      rfl).2⟩

/-- C10: validation only tests key presence, never value types: a document
whose top level has the data and metadata keys, whose metadata object has a
string id passing the identity check, is accepted even when the data value
is not a mapping, and import stores its serialization as-is. -/
theorem validate_ignores_value_types (cfg : Config) (f : String) (st : Store)
    (kvs mdkvs : List (String × JValue)) (dv : JValue) (idStr : String)
    (hd : lookupObj kvs "data" = some dv)
    (hm : lookupObj kvs "metadata" = some (.obj mdkvs))
    (hid : lookupObj mdkvs "id" = some (.str idStr))
    (hok : idStr = cfg.page_url ∨
      startsWithB cfg.workspaces_url idStr = true) :
    validate (some (.obj kvs)) cfg.page_url cfg.workspaces_url =
      .ok (.obj kvs) ∧
    lookupFile (importStart cfg [f] true (some (.obj kvs)) true st).2.files
      (wsFileName cfg (.obj kvs)) =
      some (.content (jdump (.obj kvs))) := by
  have hda : kvs.any (fun q => q.1 == "data") = true :=
    any_of_lookupObj _ _ _ hd
  have hvok : validate (some (.obj kvs)) cfg.page_url cfg.workspaces_url =
      .ok (.obj kvs) := by
    rw [validate_structured kvs mdkvs idStr _ _ hda hm hid]
    rw [if_pos hok]
  refine ⟨hvok, ?_⟩
  rw [import_ok_store cfg f (some (.obj kvs)) (.obj kvs) st hvok]
  dsimp only
  exact lookupFile_setFile_self _ _ _

theorem validate_ignores_value_types_witness :
    lookupObj [("data", JValue.num 5),
      ("metadata", JValue.obj [("id", JValue.str "/lab/workspaces/x")])]
      "data" = some (JValue.num 5) ∧
    validate (some docValNum) cfgEx.page_url cfgEx.workspaces_url =
      .ok docValNum :=
  ⟨rfl,
   (validate_ignores_value_types cfgEx "w.json" ⟨false, []⟩
      [("data", JValue.num 5),
        ("metadata", JValue.obj [("id", JValue.str "/lab/workspaces/x")])]
      [("id", JValue.str "/lab/workspaces/x")]
      (JValue.num 5) "/lab/workspaces/x" rfl rfl rfl (Or.inr rfl)).1⟩

end LabWorkspace
